import Mathlib

/-!
Verification development for the ghg-calculator repository.

Shallow embedding conventions:
  Python floats are modelled as rationals, Python str as Lean String,
  Optional fields as Option, raised exceptions as Except with an error
  inductive distinguishing the error kinds of the documented taxonomy.
  The external pint unit-conversion service is modelled as an abstract
  converter argument of type Converter returning none on failure.
  Fields that no calculator reads (timestamps, data-quality records,
  free-form metadata) are omitted from the structures.
-/

namespace GHG

/-- Lowercase a string character by character, modelling the Python method
str.lower on the ASCII identifiers used throughout this codebase. -/
def pyLower (s : String) : String := String.mk (s.data.map Char.toLower)

/-- Test whether the first list is an initial segment of the second. -/
def leadsList : List Char → List Char → Bool
  | [], _ => true
  | _ :: _, [] => false
  | a :: as, b :: bs => a == b && leadsList as bs

/-- Test whether p occurs as a contiguous segment of the second list. -/
def subList (p : List Char) : List Char → Bool
  | [] => leadsList p []
  | b :: bs => leadsList p (b :: bs) || subList p bs

/-- Substring containment: hasSub s p holds when p occurs inside s,
modelling the Python expression p in s. -/
def hasSub (s p : String) : Bool := subList p.data s.data

/-- Cut a character list at every space, keeping empty pieces. -/
def splitSpacesAux (cur : List Char) : List Char → List (List Char)
  | [] => [cur.reverse]
  | c :: cs =>
    if c.toNat = 32 then cur.reverse :: splitSpacesAux [] cs
    else splitSpacesAux (c :: cur) cs

/-- Split on spaces and drop empty pieces, modelling the Python method
str.split with no arguments on space-separated text. -/
def pySplit (s : String) : List String :=
  ((splitSpacesAux [] s.data).filter (fun w => w ≠ [])).map String.mk

/-- Python truthiness of an optional string: None and the empty string are
falsy, modelled by collapsing both to none. -/
def pyStrOpt (o : Option String) : Option String :=
  match o with
  | none => none
  | some s => if s = "" then none else some s

/-- Python truthiness of an optional float: None and 0.0 are falsy. -/
def pyRatOpt (o : Option ℚ) : Option ℚ :=
  match o with
  | none => none
  | some v => if v = 0 then none else some v

/-- Enumeration of emission scopes, from models/enums.py. -/
inductive Scope where
  | scope_1
  | scope_2
  | scope_3
deriving DecidableEq

/-- Scope 1 categories, from models/enums.py. -/
inductive Scope1Category where
  | stationary_combustion
  | mobile_combustion
  | fugitive_emissions
  | process_emissions
deriving DecidableEq

/-- Scope 2 methods, from models/enums.py. -/
inductive Scope2Method where
  | location_based
  | market_based
deriving DecidableEq

/-- Scope 3 categories 1 to 15, from models/enums.py. -/
inductive Scope3Category where
  | purchased_goods_services
  | capital_goods
  | fuel_energy_activities
  | upstream_transport
  | waste
  | business_travel
  | employee_commuting
  | upstream_leased_assets
  | downstream_transport
  | processing_sold_products
  | use_of_sold_products
  | end_of_life_sold_products
  | downstream_leased_assets
  | franchises
  | investments
deriving DecidableEq

/-- Greenhouse gas types, from models/enums.py. -/
inductive GasType where
  | co2
  | ch4
  | n2o
  | hfc
  | pfc
  | sf6
  | nf3
  | co2e
deriving DecidableEq

/-- String value of a gas type, mirroring the Python enum values. -/
def GasType.value : GasType → String
  | .co2 => "co2"
  | .ch4 => "ch4"
  | .n2o => "n2o"
  | .hfc => "hfc"
  | .pfc => "pfc"
  | .sf6 => "sf6"
  | .nf3 => "nf3"
  | .co2e => "co2e"

/-- IPCC assessment report versions, from models/enums.py. -/
inductive GWPAssessment where
  | ar5
  | ar6
deriving DecidableEq

/-- Factor database sources, from models/enums.py. -/
inductive FactorSource where
  | epa_hub
  | egrid
  | defra
  | useeio
  | ember
  | exiobase
  | custom
deriving DecidableEq

/-- String value of a factor source, mirroring the Python enum values. -/
def FactorSource.value : FactorSource → String
  | .epa_hub => "epa_hub"
  | .egrid => "egrid"
  | .defra => "defra"
  | .useeio => "useeio"
  | .ember => "ember"
  | .exiobase => "exiobase"
  | .custom => "custom"

/-- Fuel types, from models/enums.py. -/
inductive FuelType where
  | natural_gas
  | diesel
  | gasoline
  | propane
  | fuel_oil_no2
  | fuel_oil_no6
  | kerosene
  | lpg
  | coal_bituminous
  | coal_anthracite
  | coal_subbituminous
  | wood
  | landfill_gas
  | jet_fuel
  | aviation_gasoline
  | residual_fuel_oil
  | e85
  | b20
  | cng
  | lng
deriving DecidableEq

/-- String value of a fuel type, mirroring the Python enum values. -/
def FuelType.value : FuelType → String
  | .natural_gas => "natural_gas"
  | .diesel => "diesel"
  | .gasoline => "gasoline"
  | .propane => "propane"
  | .fuel_oil_no2 => "fuel_oil_no2"
  | .fuel_oil_no6 => "fuel_oil_no6"
  | .kerosene => "kerosene"
  | .lpg => "lpg"
  | .coal_bituminous => "coal_bituminous"
  | .coal_anthracite => "coal_anthracite"
  | .coal_subbituminous => "coal_subbituminous"
  | .wood => "wood"
  | .landfill_gas => "landfill_gas"
  | .jet_fuel => "jet_fuel"
  | .aviation_gasoline => "aviation_gasoline"
  | .residual_fuel_oil => "residual_fuel_oil"
  | .e85 => "e85"
  | .b20 => "b20"
  | .cng => "cng"
  | .lng => "lng"

/-- One emission factor record, from models/factors.py; the other_factors
dictionary and the constant factor_unit field are never read by the
calculators and are omitted. -/
structure EmissionFactor where
  id : String
  name : String
  source : FactorSource
  scope : Option Scope := none
  co2_factor : ℚ := 0
  ch4_factor : ℚ := 0
  n2o_factor : ℚ := 0
  co2e_factor : Option ℚ := none
  activity_unit : String
  category : String := ""
  subcategory : String := ""
  fuel_type : Option String := none
  region : Option String := none
  year : Option Int := none
  description : String := ""
  tags : List String := []
deriving DecidableEq

/-- Activity record, from models/activity.py; fields never read by any
calculator (dates, currency, quality, free-form metadata) are omitted.
The pydantic model validates quantity, spend_amount, distance and weight
as strictly positive; the structure keeps them as plain fields and the
theorems take positivity hypotheses where it matters. -/
structure ActivityRecord where
  id : Option String := none
  name : Option String := none
  scope : Scope
  scope1_category : Option Scope1Category := none
  scope2_method : Option Scope2Method := none
  scope3_category : Option Scope3Category := none
  quantity : ℚ
  unit : String
  fuel_type : Option FuelType := none
  custom_fuel : Option String := none
  country : Option String := none
  region : Option String := none
  grid_subregion : Option String := none
  custom_factor : Option ℚ := none
  factor_source : Option FactorSource := none
  spend_amount : Option ℚ := none
  naics_code : Option String := none
  distance : Option ℚ := none
  distance_unit : Option String := none
  weight : Option ℚ := none
  weight_unit : Option String := none
  vehicle_type : Option String := none
  transport_mode : Option String := none
  waste_type : Option String := none
  disposal_method : Option String := none
  refrigerant_type : Option String := none
deriving DecidableEq

/-- Per-gas emission breakdown, from models/results.py. -/
structure GasBreakdown where
  gas : GasType
  mass_kg : ℚ
  co2e_kg : ℚ
  gwp_used : ℚ
  gwp_assessment : GWPAssessment
deriving DecidableEq

/-- Result of a single emission calculation, from models/results.py; the
timestamp and data-quality fields are omitted. -/
structure EmissionResult where
  activity_id : Option String := none
  activity_name : Option String := none
  scope : Scope
  scope1_category : Option Scope1Category := none
  scope2_method : Option Scope2Method := none
  scope3_category : Option Scope3Category := none
  total_co2e_kg : ℚ
  gas_breakdown : List GasBreakdown := []
  factor_id : Option String := none
  factor_source : Option String := none
  activity_quantity : Option ℚ := none
  activity_unit : Option String := none
  gwp_assessment : GWPAssessment
  notes : List String := []
deriving DecidableEq

/-- AR5 100-year GWP table, from factors/gwp.py. -/
def AR5_GWP : List (String × ℚ) :=
  [("co2", 1.0), ("ch4", 28.0), ("n2o", 265.0), ("sf6", 23500.0), ("nf3", 16100.0),
   ("hfc-23", 12400.0), ("hfc-32", 677.0), ("hfc-125", 3170.0), ("hfc-134a", 1300.0),
   ("hfc-143a", 4800.0), ("hfc-152a", 138.0), ("hfc-227ea", 3350.0), ("hfc-236fa", 8060.0),
   ("hfc-245fa", 858.0), ("hfc-365mfc", 804.0), ("hfc-43-10mee", 1650.0),
   ("cf4", 6630.0), ("c2f6", 11100.0), ("c3f8", 8900.0), ("c4f10", 9200.0),
   ("c5f12", 8550.0), ("c6f14", 7910.0),
   ("r-404a", 3922.0), ("r-407a", 2107.0), ("r-407c", 1774.0), ("r-410a", 2088.0),
   ("r-507a", 3985.0), ("r-508b", 13396.0)]

/-- AR6 100-year GWP table, from factors/gwp.py. -/
def AR6_GWP : List (String × ℚ) :=
  [("co2", 1.0), ("ch4", 27.9), ("n2o", 273.0), ("sf6", 25200.0), ("nf3", 17400.0),
   ("hfc-23", 14600.0), ("hfc-32", 771.0), ("hfc-125", 3740.0), ("hfc-134a", 1530.0),
   ("hfc-143a", 5810.0), ("hfc-152a", 164.0), ("hfc-227ea", 3600.0), ("hfc-236fa", 8690.0),
   ("hfc-245fa", 962.0), ("hfc-365mfc", 914.0), ("hfc-43-10mee", 1600.0),
   ("cf4", 7380.0), ("c2f6", 12400.0), ("c3f8", 9290.0), ("c4f10", 10000.0),
   ("c5f12", 9220.0), ("c6f14", 8620.0),
   ("r-404a", 4728.0), ("r-407a", 2446.0), ("r-407c", 2088.0), ("r-410a", 2256.0),
   ("r-507a", 4728.0), ("r-508b", 14760.0)]

/-- Table selection by assessment, from factors/gwp.py. -/
def gwpTable : GWPAssessment → List (String × ℚ)
  | .ar5 => AR5_GWP
  | .ar6 => AR6_GWP

/-- Association-list lookup used for the GWP dictionaries. -/
def lookupGwp (key : String) (t : List (String × ℚ)) : Option ℚ :=
  (t.find? (fun p => decide (p.1 = key))).map Prod.snd

/-- The function get_gwp of factors/gwp.py on a string identifier: the
identifier is lower-cased, the co2e pseudo-gas resolves to 1 before any
table access, and an absent key yields the UnknownGas failure, modelled
as none. -/
def get_gwp (gas : String) (assessment : GWPAssessment) : Option ℚ :=
  let key := pyLower gas
  if key = "co2e" then some 1
  else lookupGwp key (gwpTable assessment)

/-- The function get_gwp of factors/gwp.py on a GasType argument: the code
uses the enum value directly as the key without lower-casing. -/
def get_gwp_gas (gas : GasType) (assessment : GWPAssessment) : Option ℚ :=
  let key := gas.value
  if key = "co2e" then some 1
  else lookupGwp key (gwpTable assessment)

/-- GWP of a core gas with a default of zero; for co2, ch4 and n2o the
lookup always succeeds, so the default only stands in for the KeyError
the code would raise on a table miss. -/
def gwpOrZero (gas : GasType) (assessment : GWPAssessment) : ℚ :=
  (get_gwp_gas gas assessment).getD 0

/-- In-memory collection of loaded factors, from factors/registry.py; the
id index and version list are not needed by the verified claims. -/
structure FactorRegistry where
  factors : List EmissionFactor
deriving DecidableEq

/-- Sequential narrowing filters of FactorRegistry.search, translated
clause by clause from factors/registry.py lines 63 to 91. -/
def applyFilters (reg : FactorRegistry) (source : Option FactorSource)
    (category fuel_type region : Option String) (scope : Option Scope)
    (activity_unit : Option String) (tags : List String) : List EmissionFactor :=
  let r0 := reg.factors
  let r1 := match source with
    | none => r0
    | some s => r0.filter (fun f => decide (f.source = s))
  let r2 := match category with
    | none => r1
    | some c => r1.filter (fun f => decide (f.category = c))
  let r3 := match fuel_type with
    | none => r2
    | some c => r2.filter (fun f =>
        match f.fuel_type with
        | none => false
        | some g => decide (g ≠ "") && decide (pyLower g = pyLower c))
  let r4 := match region with
    | none => r3
    | some c => r3.filter (fun f =>
        match f.region with
        | none => false
        | some g => decide (g ≠ "") && decide (pyLower g = pyLower c))
  let r5 := match scope with
    | none => r4
    | some sc => r4.filter (fun f => decide (f.scope = some sc))
  let r6 := match activity_unit with
    | none => r5
    | some u => r5.filter (fun f => decide (pyLower f.activity_unit = pyLower u))
  if tags = [] then r6
  else r6.filter (fun f =>
    tags.all (fun t => (f.tags.map pyLower).any (fun x => decide (x = pyLower t))))

/-- Join strings with single spaces, modelling the Python space join. -/
def joinSpace : List String → String
  | [] => ""
  | [x] => x
  | x :: y :: xs => x ++ " " ++ joinSpace (y :: xs)

/-- Concatenated searchable text of a factor, from the f-string in
factors/registry.py line 98. -/
def searchableText (f : EmissionFactor) : String :=
  f.name ++ " " ++ f.description ++ " " ++ f.category ++ " " ++ f.subcategory ++ " "
    ++ (f.fuel_type.getD "") ++ " " ++ joinSpace f.tags

/-- Relevance score of one factor against a lower-cased query, translated
from the scoring loop of factors/registry.py lines 97 to 110. -/
def scoreOf (queryLower : String) (f : EmissionFactor) : Nat :=
  let searchableLower := pyLower (searchableText f)
  let s1 := if hasSub searchableLower queryLower then 10 else 0
  let s2 := s1 + (if hasSub (pyLower f.name) queryLower then 20 else 0)
  let s3 := s2 + (if queryLower = pyLower (f.fuel_type.getD "") then 15 else 0)
  (pySplit queryLower).foldl
    (fun acc w => if hasSub searchableLower w then acc + 5 else acc) s3

/-- Insertion step of a stable descending sort on the score component. -/
def insertDesc (x : Nat × EmissionFactor) :
    List (Nat × EmissionFactor) → List (Nat × EmissionFactor)
  | [] => [x]
  | y :: ys => if y.1 < x.1 then x :: y :: ys else y :: insertDesc x ys

/-- Stable descending sort on the score component, modelling the Python
call scored.sort with reverse set, which is guaranteed stable. -/
def stableSortDesc (l : List (Nat × EmissionFactor)) : List (Nat × EmissionFactor) :=
  l.foldl (fun acc x => insertDesc x acc) []

/-- Free-text phase of search: skipped for an empty query, otherwise score,
drop zero scores, and sort stably by descending score, from
factors/registry.py lines 93 to 114. -/
def queryPhase (query : String) (l : List EmissionFactor) : List EmissionFactor :=
  if query = "" then l
  else
    let qL := pyLower query
    let scored := l.filterMap (fun f =>
      let s := scoreOf qL f
      if 0 < s then some (s, f) else none)
    (stableSortDesc scored).map Prod.snd

/-- Default of the limit parameter of search in factors/registry.py. -/
def defaultSearchLimit : Nat := 50

/-- The method FactorRegistry.search of factors/registry.py: sequential
exact filters, optional free-text ranking, truncation to the limit. -/
def FactorRegistry.search (reg : FactorRegistry) (query : String)
    (source : Option FactorSource) (category fuel_type region : Option String)
    (scope : Option Scope) (activity_unit : Option String)
    (tags : List String) (limit : Nat) : List EmissionFactor :=
  (queryPhase query
    (applyFilters reg source category fuel_type region scope activity_unit tags)).take limit

/-- The method FactorRegistry.find_factor of factors/registry.py: a search
with no free text and limit one, returning the first hit if any. -/
def FactorRegistry.find_factor (reg : FactorRegistry) (category : String)
    (fuel_type region activity_unit : Option String)
    (source : Option FactorSource) : Option EmissionFactor :=
  (reg.search "" source (some category) fuel_type region none activity_unit [] 1).head?

/-- Error taxonomy of the calculation paths; the code raises ValueError
with distinguishing messages, the spec names the kinds. String
interpolation of runtime data into messages is elided. -/
inductive CalcError where
  | noMatchingFactor (msg : String)
  | unitConversion (msg : String)
  | validation (msg : String)
deriving DecidableEq

/-- Abstract dimensional conversion service of units/converter.py: given a
value, a source unit and a target unit it yields the converted value, or
none when the conversion raises. -/
abbrev Converter := ℚ → String → String → Option ℚ

/-- The helper _build_gas_breakdown of engine/base.py: one entry per core
gas with strictly positive mass, carrying the GWP-weighted CO2e. -/
def buildGasBreakdown (a : GWPAssessment) (co2_kg ch4_kg n2o_kg : ℚ) : List GasBreakdown :=
  ([(GasType.co2, co2_kg), (GasType.ch4, ch4_kg), (GasType.n2o, n2o_kg)]).filterMap
    (fun p =>
      if 0 < p.2 then
        some { gas := p.1, mass_kg := p.2, co2e_kg := p.2 * gwpOrZero p.1 a,
               gwp_used := gwpOrZero p.1 a, gwp_assessment := a }
      else none)

/-- The helper _total_co2e of engine/base.py. -/
def totalCo2e (breakdown : List GasBreakdown) : ℚ :=
  (breakdown.map (fun g => g.co2e_kg)).sum

/-- Factor resolution of StationaryCombustionCalculator in
engine/scope1/stationary.py: a fuel key from the fuel-type enum value or
the free-text custom fuel, then one registry lookup. -/
def stationaryFindFactor (reg : FactorRegistry) (a : ActivityRecord) : Option EmissionFactor :=
  match pyStrOpt (match a.fuel_type with
    | some ft => some ft.value
    | none => a.custom_fuel) with
  | some k => reg.find_factor "stationary_combustion" (some k) none (some a.unit) a.factor_source
  | none => none

/-- The calculate method of StationaryCombustionCalculator in
engine/scope1/stationary.py. -/
def stationaryCalculate (reg : FactorRegistry) (conv : Converter)
    (gwpA : GWPAssessment) (a : ActivityRecord) :
    Except CalcError (List EmissionResult) :=
  match a.custom_factor with
  | some cf =>
    .ok [{ activity_id := a.id, activity_name := a.name, scope := Scope.scope_1,
           scope1_category := some Scope1Category.stationary_combustion,
           total_co2e_kg := a.quantity * cf,
           activity_quantity := some a.quantity, activity_unit := some a.unit,
           gwp_assessment := gwpA, notes := ["Custom emission factor used"] }]
  | none =>
    match stationaryFindFactor reg a with
    | none => .error (.noMatchingFactor "No emission factor found for stationary combustion")
    | some factor =>
      let converted : Except CalcError ℚ :=
        if pyLower a.unit = pyLower factor.activity_unit then .ok a.quantity
        else
          match conv a.quantity a.unit factor.activity_unit with
          | some v => .ok v
          | none => .error (.unitConversion "Cannot convert unit for factor")
      match converted with
      | .error e => .error e
      | .ok quantity =>
        let breakdown := buildGasBreakdown gwpA (quantity * factor.co2_factor)
          (quantity * factor.ch4_factor) (quantity * factor.n2o_factor)
        .ok [{ activity_id := a.id, activity_name := a.name, scope := Scope.scope_1,
               scope1_category := some Scope1Category.stationary_combustion,
               total_co2e_kg := totalCo2e breakdown, gas_breakdown := breakdown,
               factor_id := some factor.id, factor_source := some factor.source.value,
               activity_quantity := some a.quantity, activity_unit := some a.unit,
               gwp_assessment := gwpA }]

/-- Factor resolution of MobileCombustionCalculator in
engine/scope1/mobile.py: a vehicle-qualified attempt followed by a
fuel-only attempt with identical search parameters. -/
def mobileFindFactor (reg : FactorRegistry) (a : ActivityRecord) : Option EmissionFactor :=
  let rawFuel := match a.fuel_type with
    | some ft => some ft.value
    | none => a.custom_fuel
  let viaVehicle := match pyStrOpt a.vehicle_type with
    | some _ =>
      reg.find_factor "mobile_combustion" rawFuel none (some a.unit) a.factor_source
    | none => none
  match viaVehicle with
  | some f => some f
  | none =>
    match pyStrOpt rawFuel with
    | some k =>
      reg.find_factor "mobile_combustion" (some k) none (some a.unit) a.factor_source
    | none => none

/-- The calculate method of MobileCombustionCalculator in
engine/scope1/mobile.py. -/
def mobileCalculate (reg : FactorRegistry) (conv : Converter)
    (gwpA : GWPAssessment) (a : ActivityRecord) :
    Except CalcError (List EmissionResult) :=
  match a.custom_factor with
  | some cf =>
    .ok [{ activity_id := a.id, activity_name := a.name, scope := Scope.scope_1,
           scope1_category := some Scope1Category.mobile_combustion,
           total_co2e_kg := a.quantity * cf,
           activity_quantity := some a.quantity, activity_unit := some a.unit,
           gwp_assessment := gwpA, notes := ["Custom emission factor used"] }]
  | none =>
    match mobileFindFactor reg a with
    | none => .error (.noMatchingFactor "No emission factor found for mobile combustion")
    | some factor =>
      let converted : Except CalcError ℚ :=
        if pyLower a.unit = pyLower factor.activity_unit then .ok a.quantity
        else
          match conv a.quantity a.unit factor.activity_unit with
          | some v => .ok v
          | none => .error (.unitConversion "Cannot convert unit for factor")
      match converted with
      | .error e => .error e
      | .ok quantity =>
        let breakdown := buildGasBreakdown gwpA (quantity * factor.co2_factor)
          (quantity * factor.ch4_factor) (quantity * factor.n2o_factor)
        .ok [{ activity_id := a.id, activity_name := a.name, scope := Scope.scope_1,
               scope1_category := some Scope1Category.mobile_combustion,
               total_co2e_kg := totalCo2e breakdown, gas_breakdown := breakdown,
               factor_id := some factor.id, factor_source := some factor.source.value,
               activity_quantity := some a.quantity, activity_unit := some a.unit,
               gwp_assessment := gwpA }]

/-- The calculate method of ProcessEmissionsCalculator in
engine/scope1/process.py. -/
def processCalculate (reg : FactorRegistry) (gwpA : GWPAssessment)
    (a : ActivityRecord) : Except CalcError (List EmissionResult) :=
  match a.custom_factor with
  | some cf =>
    .ok [{ activity_id := a.id, activity_name := a.name, scope := Scope.scope_1,
           scope1_category := some Scope1Category.process_emissions,
           total_co2e_kg := a.quantity * cf,
           activity_quantity := some a.quantity, activity_unit := some a.unit,
           gwp_assessment := gwpA,
           notes := ["Custom emission factor used for process emissions"] }]
  | none =>
    match reg.find_factor "process_emissions" none none (some a.unit) a.factor_source with
    | none => .error (.noMatchingFactor "Process emissions require a custom factor or matching factor")
    | some factor =>
      let breakdown := buildGasBreakdown gwpA (a.quantity * factor.co2_factor)
        (a.quantity * factor.ch4_factor) (a.quantity * factor.n2o_factor)
      let total := match factor.co2e_factor with
        | some c => a.quantity * c
        | none => totalCo2e breakdown
      .ok [{ activity_id := a.id, activity_name := a.name, scope := Scope.scope_1,
             scope1_category := some Scope1Category.process_emissions,
             total_co2e_kg := total, gas_breakdown := breakdown,
             factor_id := some factor.id, factor_source := some factor.source.value,
             activity_quantity := some a.quantity, activity_unit := some a.unit,
             gwp_assessment := gwpA }]

/-- The calculate method of FugitiveEmissionsCalculator in
engine/scope1/fugitive.py. -/
def fugitiveCalculate (reg : FactorRegistry) (conv : Converter)
    (gwpA : GWPAssessment) (a : ActivityRecord) :
    Except CalcError (List EmissionResult) :=
  match a.custom_factor with
  | some cf =>
    .ok [{ activity_id := a.id, activity_name := a.name, scope := Scope.scope_1,
           scope1_category := some Scope1Category.fugitive_emissions,
           total_co2e_kg := a.quantity * cf,
           activity_quantity := some a.quantity, activity_unit := some a.unit,
           gwp_assessment := gwpA, notes := ["Custom emission factor used"] }]
  | none =>
    match a.refrigerant_type with
    | none =>
      let factorFound := reg.find_factor "fugitive_emissions" none none (some a.unit) a.factor_source
      match factorFound with
      | some factor =>
        match factor.co2e_factor with
        | some cf =>
          let convertedKg : Except CalcError ℚ :=
            if pyLower a.unit = "kg" then .ok a.quantity
            else
              match conv a.quantity a.unit "kg" with
              | some v => .ok v
              | none => .error (.unitConversion "Cannot convert to kg for fugitive emissions")
          match convertedKg with
          | .error e => .error e
          | .ok quantity_kg =>
            .ok [{ activity_id := a.id, activity_name := a.name, scope := Scope.scope_1,
                   scope1_category := some Scope1Category.fugitive_emissions,
                   total_co2e_kg := quantity_kg * cf,
                   factor_id := some factor.id, factor_source := some factor.source.value,
                   activity_quantity := some a.quantity, activity_unit := some a.unit,
                   gwp_assessment := gwpA }]
        | none => .error (.noMatchingFactor "No refrigerant type specified and no matching factor found")
      | none => .error (.noMatchingFactor "No refrigerant type specified and no matching factor found")
    | some refrigerant =>
      let convertedKg : Except CalcError ℚ :=
        if pyLower a.unit = "kg" then .ok a.quantity
        else
          match conv a.quantity a.unit "kg" with
          | some v => .ok v
          | none => .error (.unitConversion "Cannot convert to kg for refrigerant calculation")
      match convertedKg with
      | .error e => .error e
      | .ok quantity_kg =>
        let gwpFound : Option ℚ :=
          match get_gwp (pyLower refrigerant) gwpA with
          | some g => some g
          | none =>
            match (reg.search refrigerant none (some "fugitive_emissions") none none none none [] 1).head? with
            | some top => top.co2e_factor
            | none => none
        match gwpFound with
        | none => .error (.noMatchingFactor "Unknown refrigerant")
        | some gwp =>
          let total := quantity_kg * gwp
          .ok [{ activity_id := a.id, activity_name := a.name, scope := Scope.scope_1,
                 scope1_category := some Scope1Category.fugitive_emissions,
                 total_co2e_kg := total,
                 gas_breakdown := [{ gas := GasType.hfc, mass_kg := quantity_kg,
                                     co2e_kg := total, gwp_used := gwp,
                                     gwp_assessment := gwpA }],
                 activity_quantity := some a.quantity, activity_unit := some a.unit,
                 gwp_assessment := gwpA,
                 notes := ["Refrigerant: " ++ refrigerant] }]

/-- The helper _find_location_factor of engine/scope2/electricity.py: grid
subregion via eGRID, then country via Ember, then the US national
average from any source. -/
def findLocationFactor (reg : FactorRegistry) (a : ActivityRecord) : Option EmissionFactor :=
  let viaSubregion := match pyStrOpt a.grid_subregion with
    | some gs => reg.find_factor "electricity" none (some gs) (some "kWh") (some FactorSource.egrid)
    | none => none
  match viaSubregion with
  | some f => some f
  | none =>
    let viaCountry := match pyStrOpt a.country with
      | some c => reg.find_factor "electricity" none (some c) (some "kWh") (some FactorSource.ember)
      | none => none
    match viaCountry with
    | some f => some f
    | none => reg.find_factor "electricity" none (some "US") (some "kWh") none

/-- The helper _find_market_factor of engine/scope2/electricity.py: a
source-specific lookup when the activity declares a factor source,
otherwise the location-based factor is reused. -/
def findMarketFactor (reg : FactorRegistry) (a : ActivityRecord) : Option EmissionFactor :=
  match a.factor_source with
  | some fs =>
    let regionArg := match pyStrOpt a.grid_subregion with
      | some g => some g
      | none => a.country
    match reg.find_factor "electricity" none regionArg (some "kWh") (some fs) with
    | some f => some f
    | none => findLocationFactor reg a
  | none => findLocationFactor reg a

/-- Note attached to every proxy market-based electricity result. -/
def marketProxyNote : String :=
  "Market-based: using grid average as proxy (no supplier-specific data)"

/-- Normalization of the activity quantity to kWh at the top of
ElectricityCalculator.calculate: skipped when the unit already is a
kilowatt-hour spelling, otherwise a dimensional conversion that raises
on failure. -/
def elecQuantityKwh (conv : Converter) (a : ActivityRecord) : Except CalcError ℚ :=
  if pyLower a.unit = "kwh" ∨ pyLower a.unit = "kilowatt_hour" then .ok a.quantity
  else
    match conv a.quantity a.unit "kWh" with
    | some v => .ok v
    | none => .error (.unitConversion "Cannot convert to kWh for electricity calculation")

/-- One dual-reporting result of the electricity calculator, built from a
resolved factor and the kWh quantity. -/
def elecFactorResult (gwpA : GWPAssessment) (a : ActivityRecord)
    (method : Scope2Method) (factor : EmissionFactor) (quantity_kwh : ℚ)
    (notes : List String) : EmissionResult :=
  let breakdown := buildGasBreakdown gwpA (quantity_kwh * factor.co2_factor)
    (quantity_kwh * factor.ch4_factor) (quantity_kwh * factor.n2o_factor)
  { activity_id := a.id, activity_name := a.name, scope := Scope.scope_2,
    scope2_method := some method,
    total_co2e_kg := totalCo2e breakdown, gas_breakdown := breakdown,
    factor_id := some factor.id, factor_source := some factor.source.value,
    activity_quantity := some a.quantity, activity_unit := some a.unit,
    gwp_assessment := gwpA, notes := notes }

/-- The calculate method of ElectricityCalculator in
engine/scope2/electricity.py: kWh normalization first, then the custom
override, then the dual location-based and market-based results. -/
def electricityCalculate (reg : FactorRegistry) (conv : Converter)
    (gwpA : GWPAssessment) (a : ActivityRecord) :
    Except CalcError (List EmissionResult) :=
  match elecQuantityKwh conv a with
  | .error e => .error e
  | .ok quantity_kwh =>
    match a.custom_factor with
    | some cf =>
      .ok [{ activity_id := a.id, activity_name := a.name, scope := Scope.scope_2,
             scope2_method := some (a.scope2_method.getD Scope2Method.location_based),
             total_co2e_kg := quantity_kwh * cf,
             activity_quantity := some a.quantity, activity_unit := some a.unit,
             gwp_assessment := gwpA, notes := ["Custom emission factor used"] }]
    | none =>
      let locationPart := match findLocationFactor reg a with
        | some lf => [elecFactorResult gwpA a Scope2Method.location_based lf quantity_kwh []]
        | none => []
      let marketPart := match findMarketFactor reg a with
        | some mf => [elecFactorResult gwpA a Scope2Method.market_based mf quantity_kwh
            [marketProxyNote]]
        | none => []
      match locationPart ++ marketPart with
      | [] => .error (.noMatchingFactor "No electricity emission factor found")
      | r :: rs => .ok (r :: rs)

/-- The class dictionary _CATEGORY_MAP of Scope3Calculator in
engine/scope3/base.py. -/
def scope3CategoryMap : List (Scope3Category × String) :=
  [(Scope3Category.purchased_goods_services, "purchased_goods"),
   (Scope3Category.capital_goods, "capital_goods"),
   (Scope3Category.fuel_energy_activities, "fuel_energy"),
   (Scope3Category.upstream_transport, "transport"),
   (Scope3Category.waste, "waste"),
   (Scope3Category.business_travel, "business_travel"),
   (Scope3Category.employee_commuting, "commuting"),
   (Scope3Category.upstream_leased_assets, "leased_assets"),
   (Scope3Category.downstream_transport, "transport"),
   (Scope3Category.processing_sold_products, "processing"),
   (Scope3Category.use_of_sold_products, "product_use"),
   (Scope3Category.end_of_life_sold_products, "end_of_life"),
   (Scope3Category.downstream_leased_assets, "leased_assets"),
   (Scope3Category.franchises, "franchises"),
   (Scope3Category.investments, "investments")]

/-- Lookup into the category map, modelling the Python dict get. -/
def scope3CatName (c : Scope3Category) : Option String :=
  (scope3CategoryMap.find? (fun p => decide (p.1 = c))).map Prod.snd

/-- The method _calculate_spend_based of engine/scope3/base.py: exact NAICS
match within USEEIO, then a NAICS free-text search within USEEIO, then a
free-text search within EXIOBASE, else failure. -/
def calcSpendBased (reg : FactorRegistry) (gwpA : GWPAssessment)
    (a : ActivityRecord) : Except CalcError (List EmissionResult) :=
  let viaNaics := match pyStrOpt a.naics_code with
    | some nc =>
      match reg.find_factor "spend_based" (some nc) none none (some FactorSource.useeio) with
      | some f => some f
      | none => (reg.search nc (some FactorSource.useeio) none none none none none [] 1).head?
    | none => none
  let factorFound := match viaNaics with
    | some f => some f
    | none =>
      (reg.search ((pyStrOpt a.naics_code).getD "") (some FactorSource.exiobase)
        none none none none none [] 1).head?
  match factorFound with
  | none => .error (.noMatchingFactor "No spend-based emission factor found")
  | some factor =>
    let spend := match pyRatOpt a.spend_amount with
      | some v => v
      | none => a.quantity
    let cf := factor.co2e_factor.getD factor.co2_factor
    .ok [{ activity_id := a.id, activity_name := a.name, scope := Scope.scope_3,
           scope3_category := a.scope3_category,
           total_co2e_kg := spend * cf,
           factor_id := some factor.id, factor_source := some factor.source.value,
           activity_quantity := some spend, activity_unit := some "USD",
           gwp_assessment := gwpA, notes := ["Spend-based"] }]

/-- Factor resolution of _calculate_distance_based in engine/scope3/base.py:
exact match on mapped category, mode and distance unit, then a broad
free-text search. -/
def distanceFindFactor (reg : FactorRegistry) (a : ActivityRecord)
    (category : Scope3Category) : Option EmissionFactor :=
  let mode := (pyStrOpt a.transport_mode).getD ((pyStrOpt a.vehicle_type).getD "average")
  let catName := (scope3CatName category).getD "transport"
  match reg.find_factor catName (some mode) none
      (some ((pyStrOpt a.distance_unit).getD "km")) none with
  | some f => some f
  | none => (reg.search (catName ++ " " ++ mode) none none none none none none [] 1).head?

/-- The method _calculate_distance_based of engine/scope3/base.py. Both the
distance conversion and the weight conversion swallow a conversion
failure and keep the unconverted value, mirroring the try-except-pass
blocks of the source. -/
def calcDistanceBased (reg : FactorRegistry) (conv : Converter)
    (gwpA : GWPAssessment) (a : ActivityRecord) (category : Scope3Category)
    (d : ℚ) : Except CalcError (List EmissionResult) :=
  let mode := (pyStrOpt a.transport_mode).getD ((pyStrOpt a.vehicle_type).getD "average")
  match distanceFindFactor reg a category with
  | none => .error (.noMatchingFactor "No distance-based factor found")
  | some factor =>
    let dist := match pyStrOpt a.distance_unit with
      | some du =>
        if pyLower du = pyLower factor.activity_unit then d
        else
          match conv d du factor.activity_unit with
          | some v => v
          | none => d
      | none => d
    let quantity := match pyRatOpt a.weight with
      | some w =>
        if hasSub (pyLower factor.activity_unit) "tonne_km" then
          let wt := match pyStrOpt a.weight_unit with
            | some wu =>
              if pyLower wu = "tonne" then w
              else
                match conv w wu "metric_ton" with
                | some v => v
                | none => w
            | none => w
          dist * wt
        else dist
      | none => dist
    let cf := factor.co2e_factor.getD factor.co2_factor
    .ok [{ activity_id := a.id, activity_name := a.name, scope := Scope.scope_3,
           scope3_category := a.scope3_category,
           total_co2e_kg := quantity * cf,
           factor_id := some factor.id, factor_source := some factor.source.value,
           activity_quantity := some quantity, activity_unit := some factor.activity_unit,
           gwp_assessment := gwpA, notes := ["Distance-based: mode=" ++ mode] }]

/-- The method _calculate_waste of engine/scope3/base.py. -/
def calcWaste (reg : FactorRegistry) (gwpA : GWPAssessment)
    (a : ActivityRecord) : Except CalcError (List EmissionResult) :=
  let wasteType := (pyStrOpt a.waste_type).getD "mixed"
  let disposal := (pyStrOpt a.disposal_method).getD "landfill"
  let factorFound :=
    match reg.find_factor "waste" (some (wasteType ++ "_" ++ disposal)) none none none with
    | some f => some f
    | none =>
      (reg.search ("waste " ++ wasteType ++ " " ++ disposal) none none none none none none [] 1).head?
  match factorFound with
  | none => .error (.noMatchingFactor "No waste emission factor found")
  | some factor =>
    let cf := factor.co2e_factor.getD factor.co2_factor
    .ok [{ activity_id := a.id, activity_name := a.name, scope := Scope.scope_3,
           scope3_category := some Scope3Category.waste,
           total_co2e_kg := a.quantity * cf,
           factor_id := some factor.id, factor_source := some factor.source.value,
           activity_quantity := some a.quantity, activity_unit := some a.unit,
           gwp_assessment := gwpA,
           notes := ["Waste: " ++ wasteType ++ "/" ++ disposal] }]

/-- The method _calculate_activity_based of engine/scope3/base.py. -/
def calcActivityBased (reg : FactorRegistry) (gwpA : GWPAssessment)
    (a : ActivityRecord) (category : Scope3Category) :
    Except CalcError (List EmissionResult) :=
  let catName := (scope3CatName category).getD ""
  let factorFound :=
    match reg.find_factor catName none none (some a.unit) a.factor_source with
    | some f => some f
    | none => (reg.search catName none none none none none (some a.unit) [] 1).head?
  match factorFound with
  | none => .error (.noMatchingFactor "No emission factor found for Scope 3 category")
  | some factor =>
    let breakdown := buildGasBreakdown gwpA (a.quantity * factor.co2_factor)
      (a.quantity * factor.ch4_factor) (a.quantity * factor.n2o_factor)
    let total := match factor.co2e_factor with
      | some c => a.quantity * c
      | none => totalCo2e breakdown
    .ok [{ activity_id := a.id, activity_name := a.name, scope := Scope.scope_3,
           scope3_category := some category,
           total_co2e_kg := total, gas_breakdown := breakdown,
           factor_id := some factor.id, factor_source := some factor.source.value,
           activity_quantity := some a.quantity, activity_unit := some a.unit,
           gwp_assessment := gwpA }]

/-- The distance-eligible categories of the dispatch in
Scope3Calculator.calculate. -/
def distanceCategories : List Scope3Category :=
  [Scope3Category.upstream_transport, Scope3Category.downstream_transport,
   Scope3Category.business_travel, Scope3Category.employee_commuting]

/-- The calculate method of Scope3Calculator in engine/scope3/base.py:
custom override, required category, then spend-based, distance-based,
waste and generic activity-based dispatch in source order. -/
def scope3Calculate (reg : FactorRegistry) (conv : Converter)
    (gwpA : GWPAssessment) (a : ActivityRecord) :
    Except CalcError (List EmissionResult) :=
  match a.custom_factor with
  | some cf =>
    .ok [{ activity_id := a.id, activity_name := a.name, scope := Scope.scope_3,
           scope3_category := a.scope3_category,
           total_co2e_kg := a.quantity * cf,
           activity_quantity := some a.quantity, activity_unit := some a.unit,
           gwp_assessment := gwpA, notes := ["Custom emission factor used"] }]
  | none =>
    match a.scope3_category with
    | none => .error (.validation "scope3_category is required for Scope 3 calculations")
    | some category =>
      match a.spend_amount with
      | some _ => calcSpendBased reg gwpA a
      | none =>
        match a.distance with
        | some d =>
          if category ∈ distanceCategories then
            calcDistanceBased reg conv gwpA a category d
          else if category = Scope3Category.waste then calcWaste reg gwpA a
          else calcActivityBased reg gwpA a category
        | none =>
          if category = Scope3Category.waste then calcWaste reg gwpA a
          else calcActivityBased reg gwpA a category

/-- Aggregated results for a single scope, from models/results.py. -/
structure ScopeResult where
  scope : Scope
  total_co2e_kg : ℚ := 0
  results : List EmissionResult := []
deriving DecidableEq

/-- The method ScopeResult.add_result of models/results.py. -/
def ScopeResult.addResult (s : ScopeResult) (r : EmissionResult) : ScopeResult :=
  { s with results := s.results ++ [r],
           total_co2e_kg := s.total_co2e_kg + r.total_co2e_kg }

/-- Complete inventory with its four buckets, from models/results.py. -/
structure InventoryResult where
  scope1 : ScopeResult
  scope2_location : ScopeResult
  scope2_market : ScopeResult
  scope3 : ScopeResult
deriving DecidableEq

/-- Freshly constructed inventory with the default empty buckets. -/
def emptyInventory : InventoryResult :=
  { scope1 := { scope := Scope.scope_1 },
    scope2_location := { scope := Scope.scope_2 },
    scope2_market := { scope := Scope.scope_2 },
    scope3 := { scope := Scope.scope_3 } }

/-- The property InventoryResult.total_co2e_kg of models/results.py: the
headline total uses the location-based Scope 2 bucket. -/
def InventoryResult.total_co2e_kg (inv : InventoryResult) : ℚ :=
  inv.scope1.total_co2e_kg + inv.scope2_location.total_co2e_kg + inv.scope3.total_co2e_kg

/-- The method InventoryResult.add_result of models/results.py: routing of
one result into the matching bucket. -/
def InventoryResult.addResult (inv : InventoryResult) (r : EmissionResult) : InventoryResult :=
  match r.scope with
  | Scope.scope_1 => { inv with scope1 := inv.scope1.addResult r }
  | Scope.scope_2 =>
    if r.scope2_method = some Scope2Method.market_based then
      { inv with scope2_market := inv.scope2_market.addResult r }
    else
      { inv with scope2_location := inv.scope2_location.addResult r }
  | Scope.scope_3 => { inv with scope3 := inv.scope3.addResult r }

/-- Folding a sequence of results into a fresh inventory, as
calculate_inventory of engine/calculator.py does. -/
def foldInventory (rs : List EmissionResult) : InventoryResult :=
  rs.foldl InventoryResult.addResult emptyInventory

/-- Sum of the headline totals of a list of results. -/
def sumTotals (l : List EmissionResult) : ℚ :=
  (l.map (fun r => r.total_co2e_kg)).sum

/-! Specification-side definitions, written from the wording of the spec
rather than from the code, to be compared with the embedded functions. -/

/-- Score formula as the specification words it: 10 for a substring hit in
the concatenated text, plus 20 for a hit in the name, plus 15 for exact
fuel-type equality, plus 5 per query word found in the text. -/
def specScore (queryLower : String) (f : EmissionFactor) : Nat :=
  (if hasSub (pyLower (searchableText f)) queryLower then 10 else 0)
  + (if hasSub (pyLower f.name) queryLower then 20 else 0)
  + (if queryLower = pyLower (f.fuel_type.getD "") then 15 else 0)
  + 5 * ((pySplit queryLower).filter
      (fun w => hasSub (pyLower (searchableText f)) w)).length

/-- Insertion into a strictly descending list of distinct scores. -/
def insertScoreDesc (s : Nat) : List Nat → List Nat
  | [] => [s]
  | t :: ts => if t < s then s :: t :: ts else if t = s then t :: ts else t :: insertScoreDesc s ts

/-- Distinct scores present in a scored list, in descending order. -/
def scoresDesc (l : List (Nat × EmissionFactor)) : List Nat :=
  l.foldl (fun acc x => insertScoreDesc x.1 acc) []

/-- Stable descending sort as the specification words it: the distinct
scores in descending order, each followed by its candidates in their
original collection order. -/
def specStableDesc (l : List (Nat × EmissionFactor)) : List (Nat × EmissionFactor) :=
  (scoresDesc l).flatMap (fun s => l.filter (fun x => decide (x.1 = s)))

/-- Free-text ranking as the specification words it: score every candidate
with the additive formula, drop zero scores, stable-sort descending. -/
def specRanking (query : String) (candidates : List EmissionFactor) : List EmissionFactor :=
  let qL := pyLower query
  let scored := candidates.filterMap (fun f =>
    let s := specScore qL f
    if 0 < s then some (s, f) else none)
  (specStableDesc scored).map Prod.snd

/-- Conjunction of the supplied search criteria as the specification words
them: each one an equality predicate, case-insensitive on the
fuel-type, region and unit strings. -/
def matchesCriteria (f : EmissionFactor) (source : Option FactorSource)
    (category fuel_type region activity_unit : Option String) : Prop :=
  (∀ s, source = some s → f.source = s)
  ∧ (∀ c, category = some c → f.category = c)
  ∧ (∀ c, fuel_type = some c → ∃ g, f.fuel_type = some g ∧ g ≠ "" ∧ pyLower g = pyLower c)
  ∧ (∀ c, region = some c → ∃ g, f.region = some g ∧ g ≠ "" ∧ pyLower g = pyLower c)
  ∧ (∀ c, activity_unit = some c → pyLower f.activity_unit = pyLower c)

/-! Concrete instances used by the counterexamples and witnesses below. -/

/-- Converter that fails on every conversion. -/
def convNone : Converter := fun _ _ _ => none

/-- Converter knowing the one true conversion from MWh to kWh. -/
def convMWh : Converter := fun v fromUnit toUnit =>
  if fromUnit = "MWh" ∧ toUnit = "kWh" then some (v * 1000) else none

/-- Empty registry. -/
def regEmpty : FactorRegistry := { factors := [] }

/-- Scope 2 activity of 2 MWh with a custom factor of 3. -/
def aC1 : ActivityRecord :=
  { scope := Scope.scope_2, quantity := 2, unit := "MWh", custom_factor := some 3 }

/-- Result the electricity calculator produces for aC1: the custom factor
is applied to the kWh-normalized quantity. -/
def rC1 : EmissionResult :=
  { scope := Scope.scope_2, scope2_method := some Scope2Method.location_based,
    total_co2e_kg := 6000, activity_quantity := some 2, activity_unit := some "MWh",
    gwp_assessment := GWPAssessment.ar5, notes := ["Custom emission factor used"] }

/-- Electricity factor for the French grid carried by the DEFRA source. -/
def factorFR : EmissionFactor :=
  { id := "defra-fr", name := "FR grid", source := FactorSource.defra,
    co2_factor := 2, activity_unit := "kWh", category := "electricity",
    region := some "FR" }

/-- Registry holding only the French DEFRA electricity factor. -/
def regFR : FactorRegistry := { factors := [factorFR] }

/-- Scope 2 activity of 1 kWh with a DEFRA source preference and no region
data, so only the market-based lookup can resolve. -/
def aC2 : ActivityRecord :=
  { scope := Scope.scope_2, quantity := 1, unit := "kWh",
    factor_source := some FactorSource.defra }

/-- The single market-based result the electricity calculator produces for
aC2 against regFR. -/
def rC2 : EmissionResult :=
  { scope := Scope.scope_2, scope2_method := some Scope2Method.market_based,
    total_co2e_kg := 2,
    gas_breakdown := [{ gas := GasType.co2, mass_kg := 2, co2e_kg := 2,
                        gwp_used := 1, gwp_assessment := GWPAssessment.ar5 }],
    factor_id := some "defra-fr", factor_source := some "defra",
    activity_quantity := some 1, activity_unit := some "kWh",
    gwp_assessment := GWPAssessment.ar5,
    notes := ["Market-based: using grid average as proxy (no supplier-specific data)"] }

/-- Factor whose category carries an upper-case letter. -/
def factorCased : EmissionFactor :=
  { id := "eg1", name := "Grid", source := FactorSource.egrid,
    activity_unit := "kWh", category := "Electricity" }

/-- Registry holding only the factor with the cased category. -/
def regCased : FactorRegistry := { factors := [factorCased] }

/-- Business-travel factor expressed per km with a pre-aggregated CO2e
coefficient. -/
def factorTravel : EmissionFactor :=
  { id := "bt1", name := "avg travel", source := FactorSource.defra,
    co2e_factor := some 2, activity_unit := "km", category := "business_travel",
    fuel_type := some "average" }

/-- Registry holding only the business-travel factor. -/
def regTravel : FactorRegistry := { factors := [factorTravel] }

/-- Scope 3 business-travel activity whose distance unit cannot be
converted to the factor unit. -/
def aC5 : ActivityRecord :=
  { scope := Scope.scope_3, scope3_category := some Scope3Category.business_travel,
    quantity := 1, unit := "trip", distance := some 10, distance_unit := some "smoot" }

/-- Result the Scope 3 calculator produces for aC5 against regTravel with a
failing converter: the raw distance of 10 is silently used. -/
def rC5 : EmissionResult :=
  { scope := Scope.scope_3, scope3_category := some Scope3Category.business_travel,
    total_co2e_kg := 20, factor_id := some "bt1", factor_source := some "defra",
    activity_quantity := some 10, activity_unit := some "km",
    gwp_assessment := GWPAssessment.ar5, notes := ["Distance-based: mode=average"] }

/-- Freight factor expressed per tonne_km with a pre-aggregated CO2e
coefficient. -/
def factorFreight : EmissionFactor :=
  { id := "fr1", name := "freight truck", source := FactorSource.defra,
    co2e_factor := some 2, activity_unit := "tonne_km", category := "transport",
    fuel_type := some "truck" }

/-- Registry holding only the freight factor. -/
def regFreight : FactorRegistry := { factors := [factorFreight] }

/-- Scope 3 upstream-transport activity whose distance unit and weight unit
both fail to convert to the factor units. -/
def aFreight : ActivityRecord :=
  { scope := Scope.scope_3, scope3_category := some Scope3Category.upstream_transport,
    quantity := 1, unit := "trip", distance := some 10, distance_unit := some "smoot",
    weight := some 5, weight_unit := some "lb", transport_mode := some "truck" }

/-- Stationary combustion factor for natural gas per therm. -/
def factorGas : EmissionFactor :=
  { id := "ng1", name := "Natural Gas", source := FactorSource.epa_hub,
    co2_factor := 5, ch4_factor := 1, n2o_factor := 1,
    activity_unit := "therm", category := "stationary_combustion",
    fuel_type := some "natural_gas", tags := ["fuel"] }

/-- Registry holding only the natural-gas factor. -/
def regGas : FactorRegistry := { factors := [factorGas] }

/-- Scope 2 result explicitly tagged market-based, for the routing witness. -/
def rMarket : EmissionResult :=
  { scope := Scope.scope_2, scope2_method := some Scope2Method.market_based,
    total_co2e_kg := 7, gwp_assessment := GWPAssessment.ar5 }

/-- Scope 1 activity with a custom factor, for the non-empty-result witness. -/
def aCustom1 : ActivityRecord :=
  { scope := Scope.scope_1, quantity := 5, unit := "gallon", custom_factor := some 10 }

/-- Result the stationary calculator produces for aCustom1. -/
def rStat : EmissionResult :=
  { scope := Scope.scope_1, scope1_category := some Scope1Category.stationary_combustion,
    total_co2e_kg := 50, activity_quantity := some 5, activity_unit := some "gallon",
    gwp_assessment := GWPAssessment.ar5, notes := ["Custom emission factor used"] }

/-- EXIOBASE spend factor. -/
def factorExio : EmissionFactor :=
  { id := "exio1", name := "Average spend", source := FactorSource.exiobase,
    co2e_factor := some 3, activity_unit := "USD", category := "spend_based" }

/-- Registry holding only the EXIOBASE spend factor. -/
def regExio : FactorRegistry := { factors := [factorExio] }

/-- Scope 3 spend-based activity with no NAICS code. -/
def aSpend : ActivityRecord :=
  { scope := Scope.scope_3, scope3_category := some Scope3Category.purchased_goods_services,
    quantity := 1, unit := "USD", spend_amount := some 100 }

/-- Result the spend-based path produces for aSpend against regExio. -/
def rSpend : EmissionResult :=
  { scope := Scope.scope_3, scope3_category := some Scope3Category.purchased_goods_services,
    total_co2e_kg := 300, factor_id := some "exio1", factor_source := some "exiobase",
    activity_quantity := some 100, activity_unit := some "USD",
    gwp_assessment := GWPAssessment.ar5, notes := ["Spend-based"] }

/-- Flag marking a result routed to the market-based bucket. -/
def isMarketScope2 (r : EmissionResult) : Bool :=
  decide (r.scope = Scope.scope_2) && decide (r.scope2_method = some Scope2Method.market_based)

/-- Invariant of the four inventory buckets: each running total equals the
sum of the totals of its retained results. -/
def invariantBuckets (inv : InventoryResult) : Prop :=
  inv.scope1.total_co2e_kg = sumTotals inv.scope1.results
  ∧ inv.scope2_location.total_co2e_kg = sumTotals inv.scope2_location.results
  ∧ inv.scope2_market.total_co2e_kg = sumTotals inv.scope2_market.results
  ∧ inv.scope3.total_co2e_kg = sumTotals inv.scope3.results

/-- US national-average electricity factor from eGRID. -/
def factorUS : EmissionFactor :=
  { id := "egrid-us", name := "US grid", source := FactorSource.egrid,
    co2_factor := 1, activity_unit := "kWh", category := "electricity",
    region := some "US" }

/-- Registry holding only the US electricity factor. -/
def regUS : FactorRegistry := { factors := [factorUS] }

/-- Scope 2 activity of 1 kWh with no region data and no source preference. -/
def aKwh : ActivityRecord := { scope := Scope.scope_2, quantity := 1, unit := "kWh" }

deriving instance DecidableEq for Except

/-! Helper lemmas shared by the claim theorems. -/

theorem head?_take_one {α} (l : List α) : (l.take 1).head? = l.head? := by
  cases l <;> rfl

theorem sumTotals_append (l : List EmissionResult) (r : EmissionResult) :
    sumTotals (l ++ [r]) = sumTotals l + r.total_co2e_kg := by
  simp [sumTotals]

theorem sumTotals_cons (r : EmissionResult) (l : List EmissionResult) :
    sumTotals (r :: l) = r.total_co2e_kg + sumTotals l := by
  simp [sumTotals]

theorem invariantBuckets_addResult (inv : InventoryResult) (r : EmissionResult)
    (h : invariantBuckets inv) : invariantBuckets (inv.addResult r) := by
  obtain ⟨h1, h2, h3, h4⟩ := h
  unfold invariantBuckets InventoryResult.addResult
  cases hs : r.scope
  · simp [ScopeResult.addResult, sumTotals_append, h1, h2, h3, h4]
  · by_cases hm : r.scope2_method = some Scope2Method.market_based
    · simp [hm, ScopeResult.addResult, sumTotals_append, h1, h2, h3, h4]
    · simp [hm, ScopeResult.addResult, sumTotals_append, h1, h2, h3, h4]
  · simp [ScopeResult.addResult, sumTotals_append, h1, h2, h3, h4]

theorem addResult_total (inv : InventoryResult) (r : EmissionResult) :
    (inv.addResult r).total_co2e_kg
      = inv.total_co2e_kg + (if isMarketScope2 r then 0 else r.total_co2e_kg) := by
  unfold InventoryResult.addResult InventoryResult.total_co2e_kg isMarketScope2
  cases hs : r.scope
  · simp [ScopeResult.addResult, hs]; ring
  · by_cases hm : r.scope2_method = some Scope2Method.market_based
    · simp [ScopeResult.addResult, hs, hm]
    · simp [ScopeResult.addResult, hs, hm]; ring
  · simp [ScopeResult.addResult, hs]; ring

theorem foldl_invariantBuckets (rs : List EmissionResult) :
    ∀ inv, invariantBuckets inv →
      invariantBuckets (rs.foldl InventoryResult.addResult inv) := by
  induction rs with
  | nil => intro inv h; simpa using h
  | cons r rest ih => intro inv h; exact ih _ (invariantBuckets_addResult _ _ h)

theorem foldl_total (rs : List EmissionResult) :
    ∀ inv, (rs.foldl InventoryResult.addResult inv).total_co2e_kg
      = inv.total_co2e_kg + sumTotals (rs.filter (fun r => ! isMarketScope2 r)) := by
  induction rs with
  | nil => intro inv; simp [sumTotals]
  | cons r rest ih =>
    intro inv
    simp only [List.foldl_cons, ih, addResult_total, List.filter_cons]
    by_cases hm : isMarketScope2 r
    · simp [hm]
    · simp [hm, sumTotals_cons]; ring

/-! Claim theorems. -/

/-- C6: get_gwp returns 1.0 whenever the lower-cased identifier is co2e,
regardless of the assessment and of table membership, and it fails with
the UnknownGas error exactly when the lower-cased identifier is neither
co2e nor a key of the selected assessment table. -/
theorem c6_gwp_co2e_shortcut_and_unknown (g : String) (a : GWPAssessment) :
    (pyLower g = "co2e" → get_gwp g a = some 1)
    ∧ (get_gwp g a = none
        ↔ pyLower g ≠ "co2e" ∧ pyLower g ∉ (gwpTable a).map Prod.fst) := by
  constructor
  · intro h; simp [get_gwp, h]
  · unfold get_gwp lookupGwp
    by_cases h : pyLower g = "co2e"
    · simp [h]
    · simp only [h, if_false, ne_eq, not_false_eq_true, true_and]
      rw [Option.map_eq_none', List.find?_eq_none]
      constructor
      · intro hall hmem
        obtain ⟨p, hp, hfst⟩ := List.mem_map.mp hmem
        have hq := hall p hp
        simp only [decide_eq_true_eq] at hq
        exact hq hfst
      · intro hmem p hp
        simp only [decide_eq_true_eq]
        intro heq
        exact hmem (List.mem_map.mpr ⟨p, hp, heq⟩)

/-- Witness for C6 at a concrete cased identifier and assessment. -/
theorem c6_witness : get_gwp "CO2e" GWPAssessment.ar6 = some 1 :=
  (c6_gwp_co2e_shortcut_and_unknown "CO2e" GWPAssessment.ar6).1 (by decide)

/-- C7: for every inventory built by folding results into a fresh
inventory, every bucket total equals the sum of the totals of its
retained results, the headline total is the sum of the scope 1,
location-based scope 2 and scope 3 bucket totals, and therefore equals
the sum over all folded results that are not market-based scope 2. -/
theorem c7_inventory_invariant (rs : List EmissionResult) :
    invariantBuckets (foldInventory rs)
    ∧ (foldInventory rs).total_co2e_kg
        = (foldInventory rs).scope1.total_co2e_kg
          + (foldInventory rs).scope2_location.total_co2e_kg
          + (foldInventory rs).scope3.total_co2e_kg
    ∧ (foldInventory rs).total_co2e_kg
        = sumTotals (rs.filter (fun r => ! isMarketScope2 r)) := by
  refine ⟨?_, rfl, ?_⟩
  · exact foldl_invariantBuckets rs emptyInventory
      (by simp [invariantBuckets, emptyInventory, sumTotals])
  · have h := foldl_total rs emptyInventory
    simpa [foldInventory, emptyInventory, InventoryResult.total_co2e_kg] using h

/-- C8: a scope 2 result is routed to the market bucket exactly when its
method tag is explicitly market-based; every other scope 2 result,
including one with no method set, goes to the location bucket, and the
other buckets are untouched. -/
theorem c8_scope2_routing (inv : InventoryResult) (r : EmissionResult)
    (h : r.scope = Scope.scope_2) :
    ((inv.addResult r).scope2_market.results
        = inv.scope2_market.results
          ++ (if r.scope2_method = some Scope2Method.market_based then [r] else []))
    ∧ ((inv.addResult r).scope2_location.results
        = inv.scope2_location.results
          ++ (if r.scope2_method = some Scope2Method.market_based then [] else [r]))
    ∧ (inv.addResult r).scope1 = inv.scope1
    ∧ (inv.addResult r).scope3 = inv.scope3 := by
  unfold InventoryResult.addResult
  simp only [h]
  by_cases hm : r.scope2_method = some Scope2Method.market_based
  · simp [hm, ScopeResult.addResult]
  · simp [hm, ScopeResult.addResult]

/-- Witness for C8 on an explicitly market-based result. -/
theorem c8_witness :
    (emptyInventory.addResult rMarket).scope2_market.results
      = emptyInventory.scope2_market.results
        ++ (if rMarket.scope2_method = some Scope2Method.market_based then [rMarket] else []) :=
  (c8_scope2_routing emptyInventory rMarket rfl).1

/-- C10: a spend-based scope 3 activity without a NAICS code skips the
USEEIO lookups and takes the first EXIOBASE factor in registry order,
multiplying the spend amount by its pre-aggregated CO2e coefficient or
else its CO2 coefficient; it fails with NoMatchingFactor exactly when no
EXIOBASE factor is loaded. -/
theorem c10_spend_no_naics (reg : FactorRegistry) (conv : Converter)
    (gwpA : GWPAssessment) (a : ActivityRecord) (c : Scope3Category) (sp : ℚ)
    (hcf : a.custom_factor = none) (hcat : a.scope3_category = some c)
    (hsp : a.spend_amount = some sp) (hpos : sp ≠ 0) (hnaics : a.naics_code = none) :
    scope3Calculate reg conv gwpA a =
      match (reg.factors.filter (fun f => decide (f.source = FactorSource.exiobase))).head? with
      | some factor =>
        .ok [{ activity_id := a.id, activity_name := a.name, scope := Scope.scope_3,
               scope3_category := a.scope3_category,
               total_co2e_kg := sp * (factor.co2e_factor.getD factor.co2_factor),
               factor_id := some factor.id, factor_source := some factor.source.value,
               activity_quantity := some sp, activity_unit := some "USD",
               gwp_assessment := gwpA, notes := ["Spend-based"] }]
      | none => .error (.noMatchingFactor "No spend-based emission factor found") := by
  have hsearch : reg.search "" (some FactorSource.exiobase) none none none none none [] 1
      = (reg.factors.filter (fun f => decide (f.source = FactorSource.exiobase))).take 1 := rfl
  simp only [scope3Calculate, hcf, hcat, hsp, calcSpendBased, hnaics, pyStrOpt,
    Option.getD_none, hsearch, head?_take_one, pyRatOpt, hpos, if_neg]
  cases hh : (reg.factors.filter (fun f => decide (f.source = FactorSource.exiobase))).head? with
  | none => simp
  | some factor => simp

/-- Witness for C10 against a one-factor EXIOBASE registry. -/
theorem c10_witness :
    scope3Calculate regExio convNone GWPAssessment.ar5 aSpend = .ok [rSpend] := by
  have h := c10_spend_no_naics regExio convNone GWPAssessment.ar5 aSpend
    Scope3Category.purchased_goods_services 100 rfl rfl rfl (by norm_num) rfl
  rw [h]
  have hf : (regExio.factors.filter
      (fun f => decide (f.source = FactorSource.exiobase))).head? = some factorExio := by decide
  simp only [hf]
  norm_num [regExio, factorExio, rSpend, aSpend, FactorSource.value]

/-- C9: each calculator either returns a non-empty result list or fails
with an explicit error; no calculator ever returns an empty list. -/
theorem c9_nonempty_or_error (reg : FactorRegistry) (conv : Converter)
    (gwpA : GWPAssessment) (a : ActivityRecord) (rs : List EmissionResult) :
    (stationaryCalculate reg conv gwpA a = .ok rs → rs ≠ [])
    ∧ (mobileCalculate reg conv gwpA a = .ok rs → rs ≠ [])
    ∧ (processCalculate reg gwpA a = .ok rs → rs ≠ [])
    ∧ (fugitiveCalculate reg conv gwpA a = .ok rs → rs ≠ [])
    ∧ (electricityCalculate reg conv gwpA a = .ok rs → rs ≠ [])
    ∧ (scope3Calculate reg conv gwpA a = .ok rs → rs ≠ []) := by
  refine ⟨?_, ?_, ?_, ?_, ?_, ?_⟩
  · intro h; unfold stationaryCalculate at h
    repeat' first
      | split at h
      | simp only [] at h
    all_goals try exact Except.noConfusion h
    all_goals obtain rfl := Except.ok.inj h
    all_goals simp
  · intro h; unfold mobileCalculate at h
    repeat' first
      | split at h
      | simp only [] at h
    all_goals try exact Except.noConfusion h
    all_goals obtain rfl := Except.ok.inj h
    all_goals simp
  · intro h; unfold processCalculate at h
    repeat' first
      | split at h
      | simp only [] at h
    all_goals try exact Except.noConfusion h
    all_goals obtain rfl := Except.ok.inj h
    all_goals simp
  · intro h; unfold fugitiveCalculate at h
    repeat' first
      | split at h
      | simp only [] at h
    all_goals try exact Except.noConfusion h
    all_goals obtain rfl := Except.ok.inj h
    all_goals simp
  · intro h; unfold electricityCalculate at h
    repeat' first
      | split at h
      | simp only [] at h
    all_goals try exact Except.noConfusion h
    all_goals obtain rfl := Except.ok.inj h
    all_goals simp
  · intro h; unfold scope3Calculate calcSpendBased calcDistanceBased calcWaste
      calcActivityBased at h
    repeat' first
      | split at h
      | simp only [] at h
    all_goals try exact Except.noConfusion h
    all_goals obtain rfl := Except.ok.inj h
    all_goals simp

/-- Witness for C9: the stationary calculator on a custom-factor activity
produces a one-element list, which is not empty. -/
theorem c9_witness : ([rStat] : List EmissionResult) ≠ [] :=
  (c9_nonempty_or_error regEmpty convNone GWPAssessment.ar5 aCustom1 [rStat]).1
    (by norm_num [stationaryCalculate, aCustom1, rStat])

/-- C1 (amended): with a custom factor every calculator bypasses the
registry and returns exactly one result with an empty gas breakdown.
The stationary, mobile, process, fugitive and scope 3 calculators use
the raw quantity, so the total is quantity times factor; the electricity
calculator first normalizes the quantity to kWh, multiplies the custom
factor by the converted quantity, and propagates a failed conversion. -/
theorem c1_custom_factor (reg reg2 : FactorRegistry) (conv conv2 : Converter)
    (gwpA : GWPAssessment) (a : ActivityRecord) (f : ℚ)
    (h : a.custom_factor = some f) :
    (stationaryCalculate reg conv gwpA a = stationaryCalculate reg2 conv2 gwpA a
      ∧ ∃ r, stationaryCalculate reg conv gwpA a = .ok [r]
          ∧ r.total_co2e_kg = a.quantity * f ∧ r.gas_breakdown = [])
    ∧ (mobileCalculate reg conv gwpA a = mobileCalculate reg2 conv2 gwpA a
      ∧ ∃ r, mobileCalculate reg conv gwpA a = .ok [r]
          ∧ r.total_co2e_kg = a.quantity * f ∧ r.gas_breakdown = [])
    ∧ (processCalculate reg gwpA a = processCalculate reg2 gwpA a
      ∧ ∃ r, processCalculate reg gwpA a = .ok [r]
          ∧ r.total_co2e_kg = a.quantity * f ∧ r.gas_breakdown = [])
    ∧ (fugitiveCalculate reg conv gwpA a = fugitiveCalculate reg2 conv2 gwpA a
      ∧ ∃ r, fugitiveCalculate reg conv gwpA a = .ok [r]
          ∧ r.total_co2e_kg = a.quantity * f ∧ r.gas_breakdown = [])
    ∧ (scope3Calculate reg conv gwpA a = scope3Calculate reg2 conv2 gwpA a
      ∧ ∃ r, scope3Calculate reg conv gwpA a = .ok [r]
          ∧ r.total_co2e_kg = a.quantity * f ∧ r.gas_breakdown = [])
    ∧ (electricityCalculate reg conv gwpA a = electricityCalculate reg2 conv gwpA a
      ∧ (∀ qk, elecQuantityKwh conv a = .ok qk →
          ∃ r, electricityCalculate reg conv gwpA a = .ok [r]
            ∧ r.total_co2e_kg = qk * f ∧ r.gas_breakdown = []
            ∧ r.scope2_method = some (a.scope2_method.getD Scope2Method.location_based))
      ∧ (∀ e, elecQuantityKwh conv a = .error e →
          electricityCalculate reg conv gwpA a = .error e)) := by
  refine ⟨⟨?_, ?_⟩, ⟨?_, ?_⟩, ⟨?_, ?_⟩, ⟨?_, ?_⟩, ⟨?_, ?_⟩, ?_, ?_, ?_⟩
  · simp only [stationaryCalculate, h]
  · simp only [stationaryCalculate, h]; exact ⟨_, rfl, rfl, rfl⟩
  · simp only [mobileCalculate, h]
  · simp only [mobileCalculate, h]; exact ⟨_, rfl, rfl, rfl⟩
  · simp only [processCalculate, h]
  · simp only [processCalculate, h]; exact ⟨_, rfl, rfl, rfl⟩
  · simp only [fugitiveCalculate, h]
  · simp only [fugitiveCalculate, h]; exact ⟨_, rfl, rfl, rfl⟩
  · simp only [scope3Calculate, h]
  · simp only [scope3Calculate, h]; exact ⟨_, rfl, rfl, rfl⟩
  · simp only [electricityCalculate, h]
  · intro qk hq
    simp only [electricityCalculate, hq, h]
    exact ⟨_, rfl, rfl, rfl, rfl⟩
  · intro e he
    simp only [electricityCalculate, he, h]

/-- Counterexample to C1 as stated: an electricity activity of 2 MWh with
custom factor 3 yields a total of 6000 kg, not quantity times factor,
because the quantity is normalized to kWh before the custom factor is
applied. -/
theorem c1_counterexample :
    electricityCalculate regEmpty convMWh GWPAssessment.ar5 aC1 = .ok [rC1]
    ∧ rC1.total_co2e_kg ≠ aC1.quantity * 3 := by
  constructor
  · simp +decide [electricityCalculate, elecQuantityKwh, aC1, rC1, convMWh]
    norm_num
  · norm_num [rC1, aC1]

/-- Witness for C1 (amended): at a concrete custom-factor activity the
stationary result is independent of registry and converter. -/
theorem c1_witness :
    stationaryCalculate regEmpty convNone GWPAssessment.ar5 aCustom1
      = stationaryCalculate regFR convMWh GWPAssessment.ar5 aCustom1 :=
  (c1_custom_factor regEmpty regFR convNone convMWh GWPAssessment.ar5 aCustom1 10 rfl).1.1

/-- C2 (amended): without a custom factor, electricity calculation returns
exactly two results, location-based then market-based, whenever the
location-based chain resolves; when only the source-specific
market-based lookup resolves it returns exactly one market-based result;
when nothing resolves it fails. With a custom factor it returns exactly
one result whose method defaults to location-based. -/
theorem c2_dual_results (reg : FactorRegistry) (conv : Converter)
    (gwpA : GWPAssessment) (a : ActivityRecord) (qk : ℚ)
    (hq : elecQuantityKwh conv a = .ok qk) :
    (∀ cf, a.custom_factor = some cf →
      electricityCalculate reg conv gwpA a
        = .ok [{ activity_id := a.id, activity_name := a.name, scope := Scope.scope_2,
                 scope2_method := some (a.scope2_method.getD Scope2Method.location_based),
                 total_co2e_kg := qk * cf,
                 activity_quantity := some a.quantity, activity_unit := some a.unit,
                 gwp_assessment := gwpA, notes := ["Custom emission factor used"] }])
    ∧ (a.custom_factor = none → ∀ lf, findLocationFactor reg a = some lf →
        ∃ mf, findMarketFactor reg a = some mf
          ∧ electricityCalculate reg conv gwpA a
              = .ok [elecFactorResult gwpA a Scope2Method.location_based lf qk [],
                     elecFactorResult gwpA a Scope2Method.market_based mf qk [marketProxyNote]])
    ∧ (a.custom_factor = none → findLocationFactor reg a = none →
        ∀ mf, findMarketFactor reg a = some mf →
        electricityCalculate reg conv gwpA a
          = .ok [elecFactorResult gwpA a Scope2Method.market_based mf qk [marketProxyNote]])
    ∧ (a.custom_factor = none → findLocationFactor reg a = none →
        findMarketFactor reg a = none →
        electricityCalculate reg conv gwpA a
          = .error (.noMatchingFactor "No electricity emission factor found")) := by
  refine ⟨?_, ?_, ?_, ?_⟩
  · intro cf hcf
    simp only [electricityCalculate, hq, hcf]
  · intro hcf lf hlf
    have hmf : ∃ mf, findMarketFactor reg a = some mf := by
      unfold findMarketFactor
      cases hfs : a.factor_source with
      | none => exact ⟨lf, hlf⟩
      | some fs =>
        simp only []
        split
        · exact ⟨_, rfl⟩
        · exact ⟨lf, hlf⟩
    obtain ⟨mf, hmf⟩ := hmf
    refine ⟨mf, hmf, ?_⟩
    simp only [electricityCalculate, hq, hcf, hlf, hmf]
    rfl
  · intro hcf hloc mf hmf
    simp only [electricityCalculate, hq, hcf, hloc, hmf]
    rfl
  · intro hcf hloc hmf
    simp only [electricityCalculate, hq, hcf, hloc, hmf]
    rfl

/-- Counterexample to C2 as stated: against a registry holding only a
non-US DEFRA electricity factor, an activity with a DEFRA source
preference and no region data resolves a market-based factor while the
location-based chain fails, so exactly one result is returned even
though a factor resolved. -/
theorem c2_counterexample :
    electricityCalculate regFR convNone GWPAssessment.ar5 aC2 = .ok [rC2]
    ∧ ¬ ([rC2].length = 2) := by
  constructor
  · simp +decide [electricityCalculate, elecQuantityKwh, aC2, rC2, convNone,
      findLocationFactor, findMarketFactor, regFR, factorFR, elecFactorResult,
      buildGasBreakdown, totalCo2e, gwpOrZero, get_gwp_gas, GasType.value, lookupGwp,
      gwpTable, AR5_GWP, pyStrOpt, FactorRegistry.find_factor, FactorRegistry.search,
      applyFilters, queryPhase, FactorSource.value, marketProxyNote]
    norm_num
  · decide

/-- Witness for C2 (amended): with a resolving location-based chain the
calculator produces the location-based and market-based pair. -/
theorem c2_witness :
    electricityCalculate regUS convNone GWPAssessment.ar5 aKwh
      = .ok [elecFactorResult GWPAssessment.ar5 aKwh Scope2Method.location_based factorUS 1 [],
             elecFactorResult GWPAssessment.ar5 aKwh Scope2Method.market_based factorUS 1
               [marketProxyNote]] := by
  obtain ⟨mf, hmf, hres⟩ :=
    (c2_dual_results regUS convNone GWPAssessment.ar5 aKwh 1 rfl).2.1 rfl factorUS (by decide)
  have hm2 : findMarketFactor regUS aKwh = some factorUS := by decide
  rw [hmf] at hm2
  obtain rfl := Option.some.inj hm2
  exact hres

/-- C5 (amended): when a required conversion fails, the stationary and
mobile calculators raise a UnitConversionError-kind error on a factor
unit mismatch, and the fugitive and electricity calculators raise on
their fixed-target conversions to kg and kWh; the scope 3
distance-based path instead swallows the failure and silently keeps the
unconverted distance, and likewise the unconverted weight on a
tonne_km composite factor, returning a result built from the raw
values. -/
theorem c5_conversion_failures (reg : FactorRegistry) (conv : Converter)
    (gwpA : GWPAssessment) (a : ActivityRecord) (fac : EmissionFactor)
    (c : Scope3Category) (d w cf : ℚ) (du wu ref : String) :
    (a.custom_factor = none → stationaryFindFactor reg a = some fac →
      pyLower a.unit ≠ pyLower fac.activity_unit →
      conv a.quantity a.unit fac.activity_unit = none →
      stationaryCalculate reg conv gwpA a
        = .error (.unitConversion "Cannot convert unit for factor"))
    ∧ (a.custom_factor = none → mobileFindFactor reg a = some fac →
      pyLower a.unit ≠ pyLower fac.activity_unit →
      conv a.quantity a.unit fac.activity_unit = none →
      mobileCalculate reg conv gwpA a
        = .error (.unitConversion "Cannot convert unit for factor"))
    ∧ (a.custom_factor = none → a.refrigerant_type = some ref →
      ¬ pyLower a.unit = "kg" →
      conv a.quantity a.unit "kg" = none →
      fugitiveCalculate reg conv gwpA a
        = .error (.unitConversion "Cannot convert to kg for refrigerant calculation"))
    ∧ (a.custom_factor = none → a.refrigerant_type = none →
      reg.find_factor "fugitive_emissions" none none (some a.unit) a.factor_source
        = some fac →
      fac.co2e_factor = some cf →
      ¬ pyLower a.unit = "kg" →
      conv a.quantity a.unit "kg" = none →
      fugitiveCalculate reg conv gwpA a
        = .error (.unitConversion "Cannot convert to kg for fugitive emissions"))
    ∧ (¬ (pyLower a.unit = "kwh" ∨ pyLower a.unit = "kilowatt_hour") →
      conv a.quantity a.unit "kWh" = none →
      electricityCalculate reg conv gwpA a
        = .error (.unitConversion "Cannot convert to kWh for electricity calculation"))
    ∧ (a.custom_factor = none → a.spend_amount = none → a.scope3_category = some c →
      c ∈ distanceCategories → a.distance = some d →
      distanceFindFactor reg a c = some fac →
      a.distance_unit = some du → du ≠ "" →
      pyLower du ≠ pyLower fac.activity_unit →
      conv d du fac.activity_unit = none →
      pyRatOpt a.weight = none →
      scope3Calculate reg conv gwpA a
        = .ok [{ activity_id := a.id, activity_name := a.name, scope := Scope.scope_3,
                 scope3_category := a.scope3_category,
                 total_co2e_kg := d * (fac.co2e_factor.getD fac.co2_factor),
                 factor_id := some fac.id, factor_source := some fac.source.value,
                 activity_quantity := some d, activity_unit := some fac.activity_unit,
                 gwp_assessment := gwpA,
                 notes := ["Distance-based: mode="
                   ++ (pyStrOpt a.transport_mode).getD
                        ((pyStrOpt a.vehicle_type).getD "average")] }])
    ∧ (a.custom_factor = none → a.spend_amount = none → a.scope3_category = some c →
      c ∈ distanceCategories → a.distance = some d →
      distanceFindFactor reg a c = some fac →
      a.distance_unit = some du → du ≠ "" →
      pyLower du ≠ pyLower fac.activity_unit →
      conv d du fac.activity_unit = none →
      pyRatOpt a.weight = some w →
      hasSub (pyLower fac.activity_unit) "tonne_km" = true →
      a.weight_unit = some wu → wu ≠ "" →
      ¬ pyLower wu = "tonne" →
      conv w wu "metric_ton" = none →
      scope3Calculate reg conv gwpA a
        = .ok [{ activity_id := a.id, activity_name := a.name, scope := Scope.scope_3,
                 scope3_category := a.scope3_category,
                 total_co2e_kg := d * w * (fac.co2e_factor.getD fac.co2_factor),
                 factor_id := some fac.id, factor_source := some fac.source.value,
                 activity_quantity := some (d * w),
                 activity_unit := some fac.activity_unit,
                 gwp_assessment := gwpA,
                 notes := ["Distance-based: mode="
                   ++ (pyStrOpt a.transport_mode).getD
                        ((pyStrOpt a.vehicle_type).getD "average")] }]) := by
  refine ⟨?_, ?_, ?_, ?_, ?_, ?_, ?_⟩
  · intro h1 h2 h3 h4
    simp only [stationaryCalculate, h1, h2, if_neg h3, h4]
  · intro h1 h2 h3 h4
    simp only [mobileCalculate, h1, h2, if_neg h3, h4]
  · intro h1 h2 h3 h4
    simp only [fugitiveCalculate, h1, h2, if_neg h3, h4]
  · intro h1 h2 h3 h4 h5 h6
    simp only [fugitiveCalculate, h1, h2, h3, h4, if_neg h5, h6]
  · intro h1 h2
    simp only [electricityCalculate, elecQuantityKwh, if_neg h1, h2]
  · intro h1 h2 h3 h4 h5 h6 h7 h8 h9 h10 h11
    simp only [scope3Calculate, h1, h3, h2, h5, if_pos h4, calcDistanceBased, h6, h7,
      pyStrOpt, if_neg h8, if_neg h9, h10, h11]
  · intro h1 h2 h3 h4 h5 h6 h7 h8 h9 h10 h11 h12 h13 h14 h15 h16
    simp only [scope3Calculate, h1, h3, h2, h5, if_pos h4, calcDistanceBased, h6, h7,
      pyStrOpt, if_neg h8, if_neg h9, h10, h11, h12, if_true, h13, if_neg h14,
      if_neg h15, h16]

/-- Counterexample to C5 as stated: the distance-based path returns a
result computed from the unconverted distance instead of raising after
the distance conversion fails. -/
theorem c5_counterexample :
    scope3Calculate regTravel convNone GWPAssessment.ar5 aC5 = .ok [rC5]
    ∧ rC5.total_co2e_kg = 20 := by
  constructor
  · have hquery : (regTravel.search "business_travel average"
        none none none none none none [] 1).head? = some factorTravel := by decide
    have hfind : regTravel.find_factor "business_travel" (some "average") none
        (some "smoot") none = none := by decide
    simp +decide [scope3Calculate, aC5, rC5, calcDistanceBased, distanceFindFactor,
      convNone, pyStrOpt, pyRatOpt, scope3CatName, scope3CategoryMap,
      distanceCategories, FactorSource.value, hquery, hfind, factorTravel]
    norm_num
  · norm_num [rC5]

/-- Witness for C5 (amended): the silent weight-and-distance substitution
branch evaluated at a concrete pair of failing conversions. -/
theorem c5_witness :
    scope3Calculate regFreight convNone GWPAssessment.ar5 aFreight
      = .ok [{ activity_id := aFreight.id, activity_name := aFreight.name,
               scope := Scope.scope_3,
               scope3_category := aFreight.scope3_category,
               total_co2e_kg := 10 * 5 * (factorFreight.co2e_factor.getD factorFreight.co2_factor),
               factor_id := some factorFreight.id,
               factor_source := some factorFreight.source.value,
               activity_quantity := some (10 * 5),
               activity_unit := some factorFreight.activity_unit,
               gwp_assessment := GWPAssessment.ar5,
               notes := ["Distance-based: mode="
                 ++ (pyStrOpt aFreight.transport_mode).getD
                      ((pyStrOpt aFreight.vehicle_type).getD "average")] }] :=
  (c5_conversion_failures regFreight convNone GWPAssessment.ar5 aFreight factorFreight
    Scope3Category.upstream_transport 10 5 0 "smoot" "lb" "").2.2.2.2.2.2 rfl rfl
    rfl (by decide) rfl (by decide) rfl (by decide) (by decide) rfl (by decide)
    (by decide) rfl (by decide) (by decide) rfl

/-- Membership in one optional-criterion filtering stage. -/
theorem mem_optFilter {β : Type} (o : Option β) (p : β → EmissionFactor → Bool)
    (l : List EmissionFactor) (f : EmissionFactor) :
    (f ∈ match o with | none => l | some c => l.filter (p c))
      ↔ f ∈ l ∧ ∀ c, o = some c → p c f = true := by
  cases o with
  | none => simp
  | some c => simp [List.mem_filter]

/-- Truth of the fuel-type predicate of search. -/
theorem fuel_pred_true (f : EmissionFactor) (c : String) :
    ((match f.fuel_type with
      | none => false
      | some g => !decide (g = "") && decide (pyLower g = pyLower c)) = true)
      ↔ ∃ g, f.fuel_type = some g ∧ ¬ g = "" ∧ pyLower g = pyLower c := by
  cases hf : f.fuel_type <;> simp [hf]

/-- Truth of the region predicate of search. -/
theorem region_pred_true (f : EmissionFactor) (c : String) :
    ((match f.region with
      | none => false
      | some g => !decide (g = "") && decide (pyLower g = pyLower c)) = true)
      ↔ ∃ g, f.region = some g ∧ ¬ g = "" ∧ pyLower g = pyLower c := by
  cases hf : f.region <;> simp [hf]

/-- C4 (amended): the supplied criteria are ANDed equality predicates; a
factor passes the filtering stage exactly when it satisfies every
supplied criterion, where fuel_type, region and activity_unit compare
case-insensitively while source and category compare exactly, so only
the latter are sensitive to letter case. -/
theorem c4_filters (reg : FactorRegistry) (src : Option FactorSource)
    (cat ft rgn unit : Option String) (f : EmissionFactor) (c1 c2 : String)
    (hcase : pyLower c1 = pyLower c2) :
    (f ∈ applyFilters reg src cat ft rgn none unit []
      ↔ f ∈ reg.factors ∧ matchesCriteria f src cat ft rgn unit)
    ∧ applyFilters reg src cat (some c1) rgn none unit []
        = applyFilters reg src cat (some c2) rgn none unit []
    ∧ applyFilters reg src cat ft (some c1) none unit []
        = applyFilters reg src cat ft (some c2) none unit []
    ∧ applyFilters reg src cat ft rgn none (some c1) []
        = applyFilters reg src cat ft rgn none (some c2) [] := by
  refine ⟨?_, ?_, ?_, ?_⟩
  · cases src <;> cases cat <;> cases ft <;> cases rgn <;> cases unit <;>
      simp [applyFilters, matchesCriteria, List.mem_filter, fuel_pred_true,
        region_pred_true, and_assoc] <;> tauto
  · simp only [applyFilters, hcase]
  · simp only [applyFilters, hcase]
  · simp only [applyFilters, hcase]

/-- Counterexample to C4 as stated: the category criterion is
case-sensitive, so two searches differing only in the letter case of the
category value return different factors. -/
theorem c4_counterexample :
    regCased.search "" none (some "electricity") none none none none [] 50
      ≠ regCased.search "" none (some "Electricity") none none none none [] 50 := by
  decide

/-- Witness for C4 (amended): the filtering stage applied with no criteria
keeps a loaded factor. -/
theorem c4_witness :
    factorCased ∈ applyFilters regCased none none none none none none [] := by
  refine ((c4_filters regCased none none none none none factorCased "x" "x" rfl).1).mpr
    ⟨by simp [regCased], ?_, ?_, ?_, ?_, ?_⟩ <;>
    exact fun c hc => Option.noConfusion hc

/-! Machinery for C3: the free-text ranking phase refines the worded
specification of the scoring formula and the stable descending sort. -/

theorem foldl_add5 (p : String → Bool) (ws : List String) :
    ∀ n : Nat, ws.foldl (fun acc w => if p w then acc + 5 else acc) n
      = n + 5 * (ws.filter p).length := by
  induction ws with
  | nil => intro n; simp
  | cons w rest ih =>
    intro n
    by_cases hw : p w <;> simp [hw, List.filter_cons, ih] <;> omega

theorem scoreOf_eq_specScore (q : String) (f : EmissionFactor) :
    scoreOf q f = specScore q f := by
  unfold scoreOf specScore
  rw [foldl_add5]

theorem mem_insertScoreDesc (s t : Nat) : ∀ acc : List Nat,
    t ∈ insertScoreDesc s acc ↔ t = s ∨ t ∈ acc := by
  intro acc
  induction acc with
  | nil => simp [insertScoreDesc]
  | cons u us ih =>
    unfold insertScoreDesc
    by_cases h1 : u < s
    · simp only [if_pos h1, List.mem_cons]
    · by_cases h2 : u = s
      · rw [if_neg h1, if_pos h2]
        subst h2
        simp only [List.mem_cons]
        tauto
      · simp only [if_neg h1, if_neg h2, List.mem_cons, ih]; tauto

theorem sorted_insertScoreDesc (s : Nat) : ∀ acc : List Nat,
    List.Pairwise (fun a b => b < a) acc →
    List.Pairwise (fun a b => b < a) (insertScoreDesc s acc) := by
  intro acc
  induction acc with
  | nil => intro _; simp [insertScoreDesc]
  | cons u us ih =>
    intro hp
    rw [List.pairwise_cons] at hp
    obtain ⟨hu, hus⟩ := hp
    unfold insertScoreDesc
    by_cases h1 : u < s
    · rw [if_pos h1]
      refine List.Pairwise.cons ?_ (List.Pairwise.cons hu hus)
      intro b hb
      rcases List.mem_cons.mp hb with rfl | hbus
      · exact h1
      · exact lt_trans (hu b hbus) h1
    · by_cases h2 : u = s
      · rw [if_neg h1, if_pos h2]
        exact List.Pairwise.cons hu hus
      · rw [if_neg h1, if_neg h2]
        refine List.Pairwise.cons ?_ (ih hus)
        intro b hb
        rcases (mem_insertScoreDesc s b us).mp hb with rfl | hbus
        · omega
        · exact hu b hbus

theorem scoresDesc_loop_sorted : ∀ (l : List (Nat × EmissionFactor)) (acc : List Nat),
    List.Pairwise (fun a b => b < a) acc →
    List.Pairwise (fun a b => b < a)
      (l.foldl (fun acc x => insertScoreDesc x.1 acc) acc) := by
  intro l
  induction l with
  | nil => intro acc h; simpa using h
  | cons x xs ih => intro acc h; exact ih _ (sorted_insertScoreDesc _ _ h)

theorem sorted_scoresDesc (l : List (Nat × EmissionFactor)) :
    List.Pairwise (fun a b => b < a) (scoresDesc l) :=
  scoresDesc_loop_sorted l [] (by simp)

theorem scoresDesc_loop_mem : ∀ (l : List (Nat × EmissionFactor)) (acc : List Nat) (t : Nat),
    t ∈ l.foldl (fun acc x => insertScoreDesc x.1 acc) acc
      ↔ t ∈ acc ∨ t ∈ l.map Prod.fst := by
  intro l
  induction l with
  | nil => intro acc t; simp
  | cons x xs ih =>
    intro acc t
    simp only [List.foldl_cons, ih, mem_insertScoreDesc, List.map_cons, List.mem_cons]
    tauto

theorem mem_scoresDesc (l : List (Nat × EmissionFactor)) (t : Nat) :
    t ∈ scoresDesc l ↔ t ∈ l.map Prod.fst := by
  have h := scoresDesc_loop_mem l [] t
  simpa [scoresDesc] using h

theorem scoresDesc_snoc (l : List (Nat × EmissionFactor)) (x : Nat × EmissionFactor) :
    scoresDesc (l ++ [x]) = insertScoreDesc x.1 (scoresDesc l) := by
  simp [scoresDesc, List.foldl_append]

theorem insertDesc_cons (x y : Nat × EmissionFactor) (ys : List (Nat × EmissionFactor)) :
    insertDesc x (y :: ys)
      = if y.1 < x.1 then x :: y :: ys else y :: insertDesc x ys := rfl

theorem insertDesc_front (x : Nat × EmissionFactor) :
    ∀ L : List (Nat × EmissionFactor),
    (∀ y ∈ L, y.1 < x.1) → insertDesc x L = x :: L := by
  intro L hL
  cases L with
  | nil => rfl
  | cons y ys =>
    rw [insertDesc_cons, if_pos (hL y (List.mem_cons_self y ys))]

theorem insertDesc_append (x : Nat × EmissionFactor) :
    ∀ (L1 L2 : List (Nat × EmissionFactor)),
    (∀ y ∈ L1, x.1 ≤ y.1) → insertDesc x (L1 ++ L2) = L1 ++ insertDesc x L2 := by
  intro L1
  induction L1 with
  | nil => intro L2 _; simp
  | cons y ys ih =>
    intro L2 hY
    have hy : ¬ y.1 < x.1 := not_lt.mpr (hY y (List.mem_cons_self y ys))
    rw [List.cons_append, insertDesc_cons, if_neg hy,
      ih L2 (fun z hz => hY z (List.mem_cons_of_mem y hz)), List.cons_append]

theorem flatMap_fst_mem (S : List Nat) (g : Nat → List (Nat × EmissionFactor))
    (hg : ∀ s y, y ∈ g s → y.1 = s) :
    ∀ y ∈ S.flatMap g, y.1 ∈ S := by
  intro y hy
  obtain ⟨s, hs, hys⟩ := List.mem_flatMap.mp hy
  rw [hg s y hys]
  exact hs

theorem flatMap_congr_local {α β : Type} (S : List α) (g1 g2 : α → List β)
    (h : ∀ s ∈ S, g1 s = g2 s) : S.flatMap g1 = S.flatMap g2 := by
  induction S with
  | nil => rfl
  | cons s ss ih =>
    simp only [List.flatMap_cons]
    rw [h s (List.mem_cons_self s ss), ih (fun t ht => h t (List.mem_cons_of_mem s ht))]

theorem insertDesc_grouped (x : Nat × EmissionFactor) :
    ∀ (S : List Nat) (g : Nat → List (Nat × EmissionFactor)),
    List.Pairwise (fun a b => b < a) S →
    (∀ s y, y ∈ g s → y.1 = s) →
    (x.1 ∉ S → g x.1 = []) →
    insertDesc x (S.flatMap g)
      = (insertScoreDesc x.1 S).flatMap
          (fun s => g s ++ if x.1 = s then [x] else []) := by
  intro S
  induction S with
  | nil =>
    intro g _ hg hx
    simp [insertDesc, insertScoreDesc, hx (by simp)]
  | cons t T ih =>
    intro g hS hg hx
    rw [List.pairwise_cons] at hS
    obtain ⟨hT1, hT2⟩ := hS
    unfold insertScoreDesc
    by_cases h1 : t < x.1
    · have hnot : x.1 ∉ t :: T := by
        intro hmem
        rcases List.mem_cons.mp hmem with heq | hmemT
        · omega
        · have := hT1 _ hmemT; omega
      have hempty : g x.1 = [] := hx hnot
      rw [if_pos h1]
      have hfront : ∀ y ∈ (t :: T).flatMap g, y.1 < x.1 := by
        intro y hy
        have hyin := flatMap_fst_mem (t :: T) g hg y hy
        rcases List.mem_cons.mp hyin with h | h
        · omega
        · have := hT1 _ h; omega
      rw [insertDesc_front x _ hfront]
      have hrest : T.flatMap (fun s => g s ++ if x.1 = s then [x] else [])
          = T.flatMap g := by
        apply flatMap_congr_local
        intro s hs
        have hst := hT1 _ hs
        rw [if_neg (by omega)]
        simp
      simp only [List.flatMap_cons, hempty, if_pos rfl, hrest,
        if_neg (show ¬ x.1 = t by omega)]
      simp
    · by_cases h2 : t = x.1
      · rw [if_neg h1, if_pos h2]
        have hgt : ∀ y ∈ g t, x.1 ≤ y.1 := by
          intro y hy; rw [hg t y hy]; omega
        have hfr : ∀ y ∈ T.flatMap g, y.1 < x.1 := by
          intro y hy
          have hyin := flatMap_fst_mem T g hg y hy
          have := hT1 _ hyin; omega
        have hrest : T.flatMap (fun s => g s ++ if x.1 = s then [x] else [])
            = T.flatMap g := by
          apply flatMap_congr_local
          intro s hs
          have hst := hT1 _ hs
          rw [if_neg (by omega)]
          simp
        simp only [List.flatMap_cons]
        rw [insertDesc_append x (g t) (T.flatMap g) hgt,
          insertDesc_front x _ hfr, hrest, if_pos h2.symm]
        simp
      · have hlt : x.1 < t := by omega
        rw [if_neg h1, if_neg (show ¬ t = x.1 by omega)]
        have hgt : ∀ y ∈ g t, x.1 ≤ y.1 := by
          intro y hy; rw [hg t y hy]; omega
        have hx2 : x.1 ∉ T → g x.1 = [] := by
          intro hmem
          refine hx ?_
          intro hc
          rcases List.mem_cons.mp hc with heq | hT
          · omega
          · exact hmem hT
        simp only [List.flatMap_cons]
        rw [insertDesc_append x (g t) (T.flatMap g) hgt, ih g hT2 hg hx2,
          if_neg (show ¬ x.1 = t by omega)]
        simp

theorem stableSortDesc_eq_spec (l : List (Nat × EmissionFactor)) :
    stableSortDesc l = specStableDesc l := by
  induction l using List.reverseRecOn with
  | nil => rfl
  | append_singleton l x ih =>
    have hstep : stableSortDesc (l ++ [x]) = insertDesc x (stableSortDesc l) := by
      simp [stableSortDesc, List.foldl_append]
    have hg : ∀ s y, y ∈ l.filter (fun z => decide (z.1 = s)) → y.1 = s := by
      intro s y hy
      simpa using (List.mem_filter.mp hy).2
    have hx : x.1 ∉ scoresDesc l →
        l.filter (fun z => decide (z.1 = x.1)) = [] := by
      intro hnot
      rw [mem_scoresDesc] at hnot
      rw [List.filter_eq_nil_iff]
      intro y hy
      simp only [decide_eq_true_eq]
      intro heq
      exact hnot (List.mem_map.mpr ⟨y, hy, heq⟩)
    rw [hstep, ih]
    unfold specStableDesc
    rw [scoresDesc_snoc,
      insertDesc_grouped x (scoresDesc l) (fun s => l.filter (fun z => decide (z.1 = s)))
        (sorted_scoresDesc l) hg hx]
    apply flatMap_congr_local
    intro s hs
    rw [List.filter_append]
    by_cases hxs : x.1 = s
    · simp [hxs]
    · simp [hxs]

theorem queryPhase_eq_specRanking (q : String) (hq : q ≠ "")
    (l : List EmissionFactor) : queryPhase q l = specRanking q l := by
  unfold queryPhase specRanking
  rw [if_neg hq]
  simp only [scoreOf_eq_specScore, stableSortDesc_eq_spec]

/-- C3: for a non-empty query, search scores the filtered candidates with
the additive formula of the spec, drops zero scores, sorts stably by
descending score with tied candidates kept in collection order, and
truncates to the limit, whose default is 50. -/
theorem c3_search_ranking (reg : FactorRegistry) (q : String) (hq : q ≠ "")
    (src : Option FactorSource) (cat ft rgn : Option String) (sc : Option Scope)
    (unit : Option String) (tags : List String) (limit : Nat) :
    reg.search q src cat ft rgn sc unit tags limit
      = (specRanking q (applyFilters reg src cat ft rgn sc unit tags)).take limit
    ∧ defaultSearchLimit = 50 := by
  refine ⟨?_, rfl⟩
  unfold FactorRegistry.search
  rw [queryPhase_eq_specRanking q hq]

/-- Witness for C3 at a concrete registry and query. -/
theorem c3_witness :
    regGas.search "gas" none none none none none none [] 50
      = (specRanking "gas" (applyFilters regGas none none none none none none [])).take 50 :=
  (c3_search_ranking regGas "gas" (by decide) none none none none none none [] 50).1

end GHG
